import Mathlib

/-!
Verification of the obsidian-transcription-plugin sources.

Shallow embedding of the TypeScript sources:
  * src/services/ModelManager.ts      (first revision, lines 1-505)
  * src/processors/LocalWhisperProcessor.ts
  * src/processors/CloudWhisperProcessor.ts
  * src/processors/OpenRouterProcessor.ts (second revision of part_004)
  * src/services/TranscriptionService.ts  (revision in part_007)

JavaScript strings are modelled as Lean String values; the handful of
JavaScript string methods the code uses (includes, toLowerCase, trim,
startsWith, endsWith, padStart) are modelled explicitly below on the
character lists.  File systems are modelled as maps from path strings to
file sizes in bytes.  Asynchronous effects are modelled by passing the
outcome of each external operation (HTTP transfer, subprocess run) as an
explicit argument.
-/

/-- Characters treated as whitespace by the JavaScript string methods the
sources use (trim) and by the regex class backslash-s; restricted here to the
ASCII whitespace actually occurring in the plugin's data. -/
def jsIsSpace (c : Char) : Bool :=
  c = ' ' || c = '\t' || c = '\n' || c = '\r' || c = '\x0b' || c = '\x0c'

/-- JavaScript String.prototype.toLowerCase, ASCII case folding. -/
def jsToLower (s : String) : String :=
  ⟨s.data.map Char.toLower⟩

/-- JavaScript String.prototype.toUpperCase, ASCII case folding. -/
def jsToUpper (s : String) : String :=
  ⟨s.data.map Char.toUpper⟩

/-- Does the list start with the given pattern? -/
def listStartsWith : List Char → List Char → Bool
  | [], _ => true
  | _ :: _, [] => false
  | p :: ps, c :: cs => p = c && listStartsWith ps cs

/-- Does the pattern occur as a contiguous segment of the list?
Models JavaScript String.prototype.includes (case sensitive). -/
def listContainsSeg (pat : List Char) : List Char → Bool
  | [] => listStartsWith pat []
  | c :: cs => listStartsWith pat (c :: cs) || listContainsSeg pat cs

/-- JavaScript hay.includes(pat). -/
def strIncludes (hay pat : String) : Bool :=
  listContainsSeg pat.data hay.data

/-- Case-insensitive containment, used to state that a regex with the i flag
has no possible match position. -/
def strIncludesCI (hay pat : String) : Bool :=
  listContainsSeg (jsToLower pat).data (jsToLower hay).data

/-- JavaScript String.prototype.trim on a character list. -/
def listTrim (l : List Char) : List Char :=
  ((l.dropWhile jsIsSpace).reverse.dropWhile jsIsSpace).reverse

/-- JavaScript String.prototype.trim. -/
def jsTrim (s : String) : String :=
  ⟨listTrim s.data⟩

/-- JavaScript s.trim().length === 0, the emptiness test used on settings
strings (a missing key is modelled as the empty string, matching the
falsy check `!apiKey`). -/
def trimmedEmpty (s : String) : Bool :=
  (jsTrim s).data.isEmpty

/-- JavaScript s.startsWith(p). -/
def strStarts (s p : String) : Bool :=
  listStartsWith p.data s.data

/-- Does the list end with the given pattern? -/
def listEndsWith (pat l : List Char) : Bool :=
  listStartsWith pat.reverse l.reverse

/-- JavaScript s.endsWith(p). -/
def strEnds (s p : String) : Bool :=
  listEndsWith p.data s.data

/-- String.prototype.padStart(2, zero) for decimal renderings of naturals. -/
def pad2 (n : Nat) : String :=
  if n < 10 then "0" ++ toString n else toString n

/-- The needle occurs as a contiguous substring of the haystack.  Used to
state that a produced document surfaces a given piece of text. -/
def strSeg (needle hay : String) : Prop :=
  ∃ p q : List Char, hay.data = p ++ needle.data ++ q

/-- Concatenation of strings concatenates the underlying character lists. -/
theorem strData_append (a b : String) : (a ++ b).data = a.data ++ b.data := rfl

/-- Any middle factor of a concatenation is a contiguous substring. -/
theorem strSeg_of_append (a b c : String) : strSeg b (a ++ b ++ c) :=
  ⟨a.data, c.data, by simp [strData_append]⟩

/-!
## ModelManager (src/services/ModelManager.ts, first revision)

Model sizes are the strings of the TypeScript union ModelSize
(tiny/base/small/medium/large); at runtime they are plain strings and
the in-flight registry compares them by string equality.  A file system
is a map from path to the size in bytes of the file stored there.
-/

namespace ModelManager

/-- A file system: path to file size in bytes (none = no file). -/
def FS : Type := String → Option Nat

/-- fs.createWriteStream / streamed write modelled as installing a file of
the given cumulative size at the path. -/
def setFile (fs : FS) (p : String) (n : Nat) : FS :=
  fun q => if q = p then some n else fs q

/-- fs.unlinkSync (the sources guard it with existsSync; deleting a missing
file is a no-op either way). -/
def delFile (fs : FS) (p : String) : FS :=
  fun q => if q = p then none else fs q

/-- getModelPath: path.join(modelsDir, ggml-<size>.bin), with / for the
platform separator. -/
def getModelPath (modelsDir modelSize : String) : String :=
  modelsDir ++ "/ggml-" ++ modelSize ++ ".bin"

/-- The temporary download path of downloadModelAttempt:
`${modelPath}.download`. -/
def tempDownloadPath (modelPath : String) : String :=
  modelPath ++ ".download"

/-- checkModelExists (lines 54-57): fs.existsSync(modelPath). -/
def checkModelExists (fs : FS) (modelsDir modelSize : String) : Bool :=
  (fs (getModelPath modelsDir modelSize)).isSome

/-- validateModel (lines 476-486): existsSync, then statSync size strictly
above 1000000 bytes. -/
def validateModel (fs : FS) (modelsDir modelSize : String) : Bool :=
  match fs (getModelPath modelsDir modelSize) with
  | none => false
  | some size => 1000000 < size

/-- Primitive file-system operations performed by one download attempt. -/
inductive FsEvent
  | write (path : String) (bytes : Nat)
  | del (path : String)
  | rename (src dst : String)

/-- Effect of one primitive operation on the file system.  renameSync moves
the file at src to dst, replacing dst. -/
def applyEvent (fs : FS) : FsEvent → FS
  | .write p n => setFile fs p n
  | .del p => delFile fs p
  | .rename src dst =>
      fun q => if q = dst then fs src else if q = src then none else fs q

/-- Outcome of the external transfer inside one downloadModelAttempt.
bytesWritten is the cumulative number of bytes the response stream had
written to the temporary file when the attempt ended. -/
inductive DownloadOutcome
  | success (totalBytes : Nat)
  | netError (msg : String) (bytesWritten : Nat)
  | cancelled (bytesWritten : Nat)
  | unreachable

/-- File-system operations of one downloadModelAttempt (lines 107-270),
keyed by the transfer outcome:
  * unreachable: testConnection failed before any byte was streamed; the
    catch block still deletes the temp path if present;
  * netError / cancelled: bytes were streamed to the temp path only; the
    error handlers and the catch block delete the temp file;
  * success: the full file sits at the temp path; finalization unlinks any
    prior file at the install path and renames temp onto it. -/
def attemptEvents (modelPath tempPath : String) : DownloadOutcome → List FsEvent
  | .unreachable => [.del tempPath]
  | .netError _ n => [.write tempPath n, .del tempPath]
  | .cancelled n => [.write tempPath n, .del tempPath]
  | .success total => [.write tempPath total, .del modelPath, .rename tempPath modelPath]

/-- The error or success value downloadModelAttempt settles with. -/
def attemptResult : DownloadOutcome → Except String Unit
  | .success _ => .ok ()
  | .netError msg _ => .error msg
  | .cancelled _ => .error "Download cancelled by user"
  | .unreachable =>
      .error "Cannot reach Hugging Face servers. Check firewall/proxy settings or download manually."

/-- downloadModelAttempt: final file system and settled result. -/
def downloadModelAttempt (fs : FS) (modelsDir modelSize : String)
    (outcome : DownloadOutcome) : FS × Except String Unit :=
  let mp := getModelPath modelsDir modelSize
  let tp := tempDownloadPath mp
  ((attemptEvents mp tp outcome).foldl applyEvent fs, attemptResult outcome)

/-- Every file-system state reached during one attempt, initial state
included (scanl of the primitive events). -/
def attemptStates (fs : FS) (modelsDir modelSize : String)
    (outcome : DownloadOutcome) : List FS :=
  let mp := getModelPath modelsDir modelSize
  let tp := tempDownloadPath mp
  (attemptEvents mp tp outcome).scanl applyEvent fs

/-- Result of the retry loop in downloadModel (lines 72-100). -/
structure RetryResult where
  result : Except String Unit
  attemptsMade : Nat
  backoffsTaken : Nat

/-- The for-loop of downloadModel: run the attempt with index idx; on
success return; on an error whose message includes the substring cancelled,
rethrow without further attempts; otherwise wait 2 seconds (one backoff)
and try again while attempts remain; when attempts are exhausted the last
error is thrown.  outcomes gives the result of the idx-th attempt. -/
def downloadLoopGo (outcomes : Nat → Except String Unit) (idx : Nat) :
    Nat → String → RetryResult
  | 0, lastErr => ⟨.error lastErr, 0, 0⟩
  | remaining + 1, _ =>
    match outcomes idx with
    | .ok () => ⟨.ok (), 1, 0⟩
    | .error msg =>
      if strIncludes msg "cancelled" then ⟨.error msg, 1, 0⟩
      else if remaining = 0 then ⟨.error msg, 1, 0⟩
      else
        let r := downloadLoopGo outcomes (idx + 1) remaining msg
        ⟨r.result, r.attemptsMade + 1, r.backoffsTaken + 1⟩

/-- The retry loop with its seed for lastError (thrown if maxRetries is 0:
`Download failed after multiple attempts`). -/
def downloadWithRetries (outcomes : Nat → Except String Unit)
    (maxRetries : Nat) : RetryResult :=
  downloadLoopGo outcomes 0 maxRetries "Download failed after multiple attempts"

/-- The default of the maxRetries parameter of downloadModel (line 62). -/
def maxRetriesDefault : Nat := 2

/-- Set.prototype.add on the in-flight registry (a JS Set holds no
duplicates). -/
def setAdd (s : List String) (m : String) : List String :=
  if m ∈ s then s else m :: s

/-- Set.prototype.delete on the in-flight registry. -/
def setDelete (s : List String) (m : String) : List String :=
  s.filter (fun x => x ≠ m)

/-- The message of the rejection thrown when a download for the same model
size is already in flight (line 66). -/
def alreadyInProgressMsg (modelSize : String) : String :=
  "Download of " ++ modelSize ++ " model is already in progress"

/-- Observable outcome of one downloadModel call. -/
structure DownloadModelResult where
  result : Except String Unit
  inFlightAfter : List String
  attemptsMade : Nat
  rejectedInProgress : Bool

/-- downloadModel (lines 59-105): reject immediately when the size is in
the in-flight registry; otherwise add it, run the retry loop, and remove
it again in the finally block whatever the outcome was. -/
def downloadModel (inFlight : List String) (modelSize : String)
    (outcomes : Nat → Except String Unit) (maxRetries : Nat) :
    DownloadModelResult :=
  if modelSize ∈ inFlight then
    ⟨.error (alreadyInProgressMsg modelSize), inFlight, 0, true⟩
  else
    let r := downloadWithRetries outcomes maxRetries
    ⟨r.result, setDelete (setAdd inFlight modelSize) modelSize,
      r.attemptsMade, false⟩

end ModelManager

/-!
## Transcript data model (src/services/TranscriptionService.ts interfaces)

The TypeScript interfaces TranscriptSegment / TranscriptionResult /
AnalysisResult.  Times and durations are seconds; the sources only ever
produce the integral values modelled here as naturals.  The segment field
named end in TypeScript is named endTime because end is reserved in Lean.
-/

structure TranscriptSegment where
  start : Nat
  endTime : Nat
  text : String
  speaker : Option Nat
deriving Repr, DecidableEq

structure SpeakerInfo where
  id : Nat
  label : String
deriving Repr, DecidableEq

structure TranscriptionResult where
  text : String
  segments : List TranscriptSegment
  language : String
  duration : Nat
  speakers : Option (List SpeakerInfo)
deriving Repr, DecidableEq

structure AnalysisResult where
  summary : String
  keyPoints : List String
  actionItems : List String
  followUps : List String
deriving Repr, DecidableEq

/-!
## LocalWhisperProcessor (src/processors/LocalWhisperProcessor.ts)
-/

namespace LocalWhisperProcessor

/-- The branch test of convertToWav (line 118):
audioPath.toLowerCase().endsWith(.wav). -/
def isWavPath (audioPath : String) : Bool :=
  strEnds (jsToLower audioPath) ".wav"

/-- audioPath.replace of the last dot-extension by .temp.wav (line 130).
The JS regex replaces a final dot followed by one or more non-dot
characters; when nothing matches, replace returns the string unchanged. -/
def tempWavPath (audioPath : String) : String :=
  let rev := audioPath.data.reverse
  let ext := rev.takeWhile (fun c => c ≠ '.')
  if ext.length < rev.length && ext ≠ [] then
    ⟨(rev.drop (ext.length + 1)).reverse⟩ ++ ".temp.wav"
  else
    audioPath

/-- Observable outcome of convertToWav (lines 112-142): the artifact path
handed to the engine and whether the external conversion tool ran. -/
structure ConvertResult where
  resultPath : String
  ffmpegInvoked : Bool
deriving Repr, DecidableEq

/-- convertToWav: a path ending in .wav (case-insensitively) is returned
unchanged without consulting the audio contents and without running
ffmpeg; every other path requires ffmpeg and, when the conversion run
succeeds, yields the distinct temporary artifact tempWavPath.
ffmpegRun gives the outcome of the external ffmpeg invocation. -/
def convertToWav (ffmpegAvailable : Bool) (ffmpegRun : Except String Unit)
    (audioPath : String) : Except String ConvertResult :=
  if isWavPath audioPath then
    .ok ⟨audioPath, false⟩
  else if !ffmpegAvailable then
    .error "ffmpeg not found. Please install ffmpeg to convert audio files."
  else
    match ffmpegRun with
    | .ok () => .ok ⟨tempWavPath audioPath, true⟩
    | .error e => .error e

/-- Format properties of a source audio file as an external prober would
report them; convertToWav receives none of these, which is exactly what
the conformance claims are about. -/
structure AudioFormat where
  channels : Nat
  sampleRate : Nat
  pcm : Bool
deriving Repr, DecidableEq

/-- The engine's required format: mono, 16 kHz, uncompressed PCM. -/
def conformant (f : AudioFormat) : Bool :=
  f.channels = 1 && f.sampleRate = 16000 && f.pcm

/-- The JSON-payload detector of parseWhisperOutput (line 343): the regex
backslash-brace [backslash-s backslash-S]* quote transcription quote
[backslash-s backslash-S]* brace has a match exactly when an opening brace
is followed (anywhere later) by the quoted word transcription, itself
followed (anywhere later) by a closing brace. -/
def transcriptionTag : List Char := "\"transcription\"".data

/-- After an opening brace: does the quoted tag occur, with a closing brace
somewhere after its end? -/
def tagThenClose : List Char → Bool
  | [] => false
  | c :: rest =>
    (listStartsWith transcriptionTag (c :: rest)
      && ((c :: rest).drop transcriptionTag.length).contains '\x7d')
      || tagThenClose rest

/-- Scan for the opening brace of a candidate payload. -/
def findPayload : List Char → Bool
  | [] => false
  | c :: rest => if c = '\x7b' then tagThenClose rest else findPayload rest

/-- Does the whisper output contain a structured JSON payload in the sense
of the regex of line 343? -/
def hasJsonPayload (output : String) : Bool :=
  findPayload output.data

/-- parseWhisperOutput (lines 339-379).  The branch that parses a located
JSON payload (JSON.parse plus field extraction) is passed in as
jsonBranch; the claimed behaviour concerns only outputs with no payload,
for which the source returns the trimmed raw output as a single segment.
settingsLanguage is this.plugin.settings.language, with the JS fallback
(or auto) applied to the empty string. -/
def parseWhisperOutput (jsonBranch : String → Except String TranscriptionResult)
    (settingsLanguage : String) (output : String) :
    Except String TranscriptionResult :=
  if hasJsonPayload output then
    jsonBranch output
  else
    .ok
      { text := jsTrim output
        segments := [⟨0, 0, jsTrim output, none⟩]
        language := if settingsLanguage = "" then "auto" else settingsLanguage
        duration := 0
        speakers := none }

/-- Cancellation-relevant state of the local processor: the retained
child-process handle (field currentProcess, line 28); handles are
identified by their OS pid. -/
structure State where
  currentProcess : Option Nat
deriving Repr, DecidableEq

/-- An externally visible cancellation effect. -/
inductive CancelAction
  | killProcess (pid : Nat)
  | abortRequest (reqId : Nat)
deriving Repr, DecidableEq

/-- runWhisper retains the spawned subprocess handle (line 275). -/
def startTranscription (pid : Nat) : State :=
  { currentProcess := some pid }

/-- cancel (lines 381-386): kill the retained subprocess if one is in
flight and clear the handle. -/
def cancel (st : State) : State × List CancelAction :=
  match st.currentProcess with
  | some pid => (⟨none⟩, [.killProcess pid])
  | none => (st, [])

end LocalWhisperProcessor

/-!
## CloudWhisperProcessor (src/processors/CloudWhisperProcessor.ts) and
## OpenRouterProcessor (part_004, second revision) cancellation
-/

namespace CloudWhisperProcessor

/-- The whole mutable state of the class: plugin reference aside, only the
constant apiEndpoint; no field retains the in-flight requestUrl call. -/
structure State where
  apiEndpoint : String
deriving Repr, DecidableEq

/-- The endpoint the class is constructed with (line 8). -/
def initial : State :=
  { apiEndpoint := "https://api.openai.com/v1/audio/transcriptions" }

/-- cancel (lines 168-171): the body is empty but for the comment
`Cannot cancel HTTP requests easily`; no state changes and no abort is
issued. -/
def cancel (st : State) : State × List LocalWhisperProcessor.CancelAction :=
  (st, [])

end CloudWhisperProcessor

namespace OpenRouterProcessor

/-- cancel (part_004 lines 926-928): also an empty body; nothing aborted. -/
def cancel : List LocalWhisperProcessor.CancelAction := []

end OpenRouterProcessor

/-!
## OpenRouterProcessor.parseAnalysisResult (part_004 lines 881-924)

The parser locates each labelled markdown heading with a case-insensitive
regex, captures the text up to the next heading (the lookahead on two
hash marks) or the end of the response, and collects bullet/checkbox
lines from the capture.  Line handling is modelled by splitting on the
newline character (the multiline anchors of the JS regexes).
-/

namespace OpenRouterProcessor

/-- Case-insensitive prefix test (the i flag of the section regexes). -/
def startsWithCI (pat l : List Char) : Bool :=
  listStartsWith (pat.map Char.toLower) (l.map Char.toLower)

/-- The rest of a section pattern after its heading text: an optional
plural s (only for Follow-up Questions) then at least one whitespace
character; on success, returns the input minus the matched part (the
greedy backslash-s-plus). -/
def matchHeadingTail (optS : Bool) (after : List Char) : Option (List Char) :=
  let withS : Option (List Char) :=
    if optS then
      match after with
      | a :: rest =>
        if (a.toLower = 's') && (match rest with
            | b :: _ => jsIsSpace b
            | [] => false) then
          some (rest.dropWhile jsIsSpace)
        else none
      | [] => none
    else none
  match withS with
  | some body => some body
  | none =>
    match after with
    | b :: _ => if jsIsSpace b then some (after.dropWhile jsIsSpace) else none
    | [] => none

/-- The lazy capture with lookahead: everything before the first occurrence
of two hash marks, or the whole rest when none occurs. -/
def captureUntilHeads : List Char → List Char
  | [] => []
  | c :: rest =>
    if listStartsWith "##".data (c :: rest) then []
    else c :: captureUntilHeads rest

/-- Scan the content for the first position where the full section pattern
(heading, optional plural s, whitespace) matches, and return the captured
section body there. -/
def extractSectionGo (heading : List Char) (optS : Bool) :
    List Char → Option (List Char)
  | [] => none
  | c :: rest =>
    if startsWithCI heading (c :: rest) then
      match matchHeadingTail optS ((c :: rest).drop heading.length) with
      | some body => some (captureUntilHeads body)
      | none => extractSectionGo heading optS rest
    else extractSectionGo heading optS rest

/-- Split a captured section into its lines (the m flag of the bullet
regexes). -/
def splitLinesGo (acc : List Char) : List Char → List (List Char)
  | [] => [acc.reverse]
  | c :: rest =>
    if c = '\n' then acc.reverse :: splitLinesGo [] rest
    else splitLinesGo (c :: acc) rest

/-- A line matching the bullet pattern (dash or star, whitespace, nonempty
rest), already stripped of its marker and trimmed as the map over the
matches does. -/
def bulletItem (line : List Char) : Option String :=
  match line with
  | [] => none
  | c :: rest =>
    if c = '-' || c = '*' then
      let spaces := rest.takeWhile jsIsSpace
      let body := rest.drop spaces.length
      if !spaces.isEmpty && !body.isEmpty then some ⟨listTrim body⟩ else none
    else none

/-- A line matching the checkbox pattern (marker, whitespace, a bracketed
single character, whitespace, nonempty rest), stripped and trimmed. -/
def checkboxItem (line : List Char) : Option String :=
  match line with
  | [] => none
  | c :: rest =>
    if c = '-' || c = '*' then
      let sp1 := rest.takeWhile jsIsSpace
      if sp1.isEmpty then none
      else
        match rest.drop sp1.length with
        | '[' :: _ :: ']' :: r2 =>
          let sp2 := r2.takeWhile jsIsSpace
          let body := r2.drop sp2.length
          if !sp2.isEmpty && !body.isEmpty then some ⟨listTrim body⟩ else none
        | _ => none
    else none

/-- parseAnalysisResult: start from the all-empty AnalysisResult and fill
each field only when its section heading is located. -/
def parseAnalysisResult (content : String) : AnalysisResult :=
  let summary :=
    match extractSectionGo "## Summary".data false content.data with
    | some body => (⟨listTrim body⟩ : String)
    | none => ""
  let keyPoints :=
    match extractSectionGo "## Key Points".data false content.data with
    | some body => (splitLinesGo [] body).filterMap bulletItem
    | none => []
  let actionItems :=
    match extractSectionGo "## Action Items".data false content.data with
    | some body => (splitLinesGo [] body).filterMap checkboxItem
    | none => []
  let followUps :=
    match extractSectionGo "## Follow-up Question".data true content.data with
    | some body => (splitLinesGo [] body).filterMap bulletItem
    | none => []
  ⟨summary, keyPoints, actionItems, followUps⟩

end OpenRouterProcessor

/-!
## TranscriptionService (src/services/TranscriptionService.ts, part_007)

The orchestration pipeline.  The outcome of each external step (the single
transcription call, the up-to-two analysis calls, the markdown save) is an
explicit input; dates are external inputs passed as the already formatted
date string.  UI effects (Notices, progress modal updates) carry no data
and are not modelled.
-/

namespace TranscriptionService

/-- The settings fields the service reads. -/
structure SettingsModel where
  processingMode : String
  modelSize : String
  openaiApiKey : String
  openrouterApiKey : String
  openrouterModelName : String
deriving Repr, DecidableEq

/-- validateSetup (lines 163-225).  binaryExists is
localProcessor.checkBinaryExists(); the model presence is read through
ModelManager.checkModelExists on the ambient file system.  The file-size
Notice (a warning only) carries no control flow and is omitted. -/
def validateSetup (binaryExists : Bool) (fs : ModelManager.FS)
    (modelsDir : String) (s : SettingsModel) : Except String Unit :=
  let openrouterChecks : Except String Unit :=
    if trimmedEmpty s.openrouterApiKey then
      .error "OpenRouter API key not configured.\n\nSolution: Go to Settings → Audio Transcription → API Keys → Add your OpenRouter API key"
    else if !(strStarts s.openrouterApiKey "sk-or-") then
      .error "Invalid OpenRouter API key format.\n\nOpenRouter API keys should start with \"sk-or-\".\nSolution: Check your API key in Settings → Audio Transcription → API Keys"
    else if trimmedEmpty s.openrouterModelName then
      .error "OpenRouter model name not configured.\n\nSolution: Go to Settings → Audio Transcription → API Keys → Add a model name (e.g., meta-llama/llama-3.2-3b-instruct)"
    else .ok ()
  if s.processingMode = "local" then
    if !binaryExists then
      .error "Whisper.cpp binary not found.\n\nSolution: Go to Settings → Audio Transcription → Download Whisper.cpp binary"
    else if !(ModelManager.checkModelExists fs modelsDir s.modelSize) then
      .error ("Model \"" ++ s.modelSize ++ "\" not found.\n\nSolution: Go to Settings → Audio Transcription → Download Model")
    else openrouterChecks
  else if s.processingMode = "cloud-whisper" then
    if trimmedEmpty s.openaiApiKey then
      .error "OpenAI API key not configured.\n\nSolution: Go to Settings → Audio Transcription → API Keys → Add your OpenAI API key"
    else if !(strStarts s.openaiApiKey "sk-") then
      .error "Invalid OpenAI API key format.\n\nOpenAI API keys should start with \"sk-\".\nSolution: Check your API key in Settings → Audio Transcription → API Keys"
    else openrouterChecks
  else openrouterChecks

/-- shouldRetryError (lines 227-249): the retry classifier over the
lower-cased error message.  It is defined by the source but never called
from the revision under verification. -/
def shouldRetryError (msg : String) : Bool :=
  let m := jsToLower msg
  if strIncludes m "not configured" || strIncludes m "not found"
      || strIncludes m "invalid" || strIncludes m "solution:" then
    false
  else if strIncludes m "timeout" || strIncludes m "network"
      || strIncludes m "econnrefused" || strIncludes m "enotfound"
      || strIncludes m "fetch failed" then
    true
  else
    true

/-- getErrorMessage (lines 251-302): rewrite of an error message into the
user-facing diagnostic. -/
def getErrorMessage (msg : String) : String :=
  let m := if msg = "" then "Unknown error occurred" else msg
  if strIncludes m "Solution:" then m
  else if strIncludes m "ffmpeg not found" then
    "FFmpeg not found. Required for audio conversion.\n\nSolution:\n• Windows: Download from https://ffmpeg.org or run: choco install ffmpeg\n• macOS: Run: brew install ffmpeg\n• Linux: Run: sudo apt install ffmpeg"
  else if strIncludes m "timeout" || strIncludes m "ETIMEDOUT" then
    "Request timed out. Check your internet connection and try again.\n\nIf the problem persists, the API service may be experiencing issues."
  else if strIncludes m "ENOTFOUND" || strIncludes m "ECONNREFUSED" then
    "Network error: Unable to connect to the API.\n\nSolution: Check your internet connection and try again."
  else if strIncludes m "401" || strIncludes m "Unauthorized" then
    "API authentication failed. Your API key may be invalid.\n\nSolution: Check your API keys in Settings → Audio Transcription → API Keys"
  else if strIncludes m "429" || strIncludes m "rate limit" then
    "API rate limit exceeded.\n\nSolution: Wait a few minutes before trying again, or upgrade your API plan."
  else if strIncludes m "413" || strIncludes m "too large" then
    "File too large for the API.\n\nSolution: Try using local processing mode instead, or split the audio into smaller segments."
  else if strIncludes m "unsupported" || strIncludes m "codec" then
    "Unsupported audio format or codec.\n\nSolution:\n• Install ffmpeg for automatic conversion\n• Or convert the audio to MP3/M4A/WAV format manually"
  else "Transcription failed: " ++ m

/-- formatTimestamp (lines 562-571). -/
def formatTimestamp (seconds : Nat) : String :=
  let hours := seconds / 3600
  let minutes := (seconds % 3600) / 60
  let secs := seconds % 60
  if 0 < hours then pad2 hours ++ ":" ++ pad2 minutes ++ ":" ++ pad2 secs
  else pad2 minutes ++ ":" ++ pad2 secs

/-- formatDuration (lines 587-596). -/
def formatDuration (seconds : Nat) : String :=
  let hours := seconds / 3600
  let minutes := (seconds % 3600) / 60
  let secs := seconds % 60
  if 0 < hours then toString hours ++ ":" ++ pad2 minutes ++ ":" ++ pad2 secs
  else toString minutes ++ ":" ++ pad2 secs

/-- Array.prototype.join. -/
def strJoin (sep : String) : List String → String
  | [] => ""
  | [x] => x
  | x :: y :: rest => x ++ sep ++ strJoin sep (y :: rest)

/-- One timestamped transcript line of formatTranscriptionSection. -/
def segmentLine (seg : TranscriptSegment) : String :=
  let speaker :=
    match seg.speaker with
    | some k => "**Speaker " ++ toString k ++ ":** "
    | none => ""
  "[" ++ formatTimestamp seg.start ++ "] " ++ speaker ++ jsTrim seg.text

/-- formatTranscriptionSection (lines 537-560). -/
def formatTranscriptionSection (includeTimestamps : Bool)
    (t : TranscriptionResult) : String :=
  let transcriptText :=
    if includeTimestamps && !t.segments.isEmpty then
      strJoin "\n\n" (t.segments.map segmentLine)
    else t.text
  "## Full Transcription\n\n" ++ transcriptText ++ "\n\n"

/-- The audio file fields formatMarkdown reads (an Obsidian TFile). -/
structure AudioFileMeta where
  name : String
  basename : String
  path : String
deriving Repr, DecidableEq

/-- transcription.speakers?.length || 0. -/
def speakerCount (t : TranscriptionResult) : Nat :=
  match t.speakers with
  | some l => l.length
  | none => 0

/-- (analysis?.actionItems?.length ?? 0). -/
def actionLen (analysis : Option AnalysisResult) : Nat :=
  match analysis with
  | some a => a.actionItems.length
  | none => 0

/-- (analysis?.followUps?.length ?? 0). -/
def followLen (analysis : Option AnalysisResult) : Nat :=
  match analysis with
  | some a => a.followUps.length
  | none => 0

/-- formatMarkdown (lines 407-535).  formattedDate is the rendering of the
current date in the configured format (time is an external input). -/
def formatMarkdown (enableDiarization includeTimestamps : Bool)
    (audio : AudioFileMeta) (formattedDate : String)
    (transcription : TranscriptionResult) (analysis : Option AnalysisResult)
    (analysisError : Option String) : String :=
  let frontmatter :=
    "---\naudio_file: \"" ++ audio.name ++ "\"\nduration: \""
      ++ formatDuration transcription.duration
      ++ "\"\ntranscribed_date: " ++ formattedDate
      ++ "\nlanguage: \"" ++ transcription.language
      ++ "\"\nspeakers: " ++ toString (speakerCount transcription)
      ++ "\ntags: [meeting, transcription]\n---\n\n"
  let header :=
    "# " ++ audio.basename ++ "\n\n> 🎙️ Audio Transcription\n> 📅 "
      ++ formattedDate ++ " | ⏱️ " ++ formatDuration transcription.duration
      ++ " | 🌐 " ++ jsToUpper transcription.language ++ "\n\n"
  let audioEmbed := "## Audio File\n\n![[" ++ audio.path ++ "]]\n\n"
  let speakerInstructions :=
    if enableDiarization then
      "\n> **👥 Speaker Labels**\n> To rename speakers, use Find & Replace:\n> - Find: `**Speaker 1:**` → Replace with: `**Alice:**`\n> - Find: `**Speaker 2:**` → Replace with: `**Bob:**`\n> - And so on for other speakers...\n\n"
    else ""
  let toc :=
    if 600 < transcription.duration then
      match analysisError with
      | some _ =>
        "## Table of Contents\n\n- [Analysis Failed](#️-analysis-failed)\n- [Full Transcription](#full-transcription)\n\n---\n\n"
      | none =>
        "## Table of Contents\n\n- [Summary](#summary)\n- [Key Points](#key-points)\n"
          ++ (if 0 < actionLen analysis then "- [Action Items](#action-items)\n" else "")
          ++ (if 0 < followLen analysis then "- [Follow-up Questions](#follow-up-questions)\n" else "")
          ++ "- [Full Transcription](#full-transcription)\n\n---\n\n"
    else ""
  let analysisSections :=
    match analysisError with
    | some e =>
      "## ⚠️ Analysis Failed\n\nThe automatic analysis and summarization failed with the following error:\n\n> **Error:** "
        ++ e
        ++ "\n\nThe transcription below was completed successfully, but automatic summarization, key point extraction, and action item detection could not be performed.\n\nYou can manually add a summary and key points below, or try re-analyzing the transcription later.\n\n"
    | none =>
      match analysis with
      | some a =>
        ("## Summary\n\n" ++ a.summary ++ "\n\n")
          ++ ("## Key Points\n\n"
              ++ strJoin "\n" (a.keyPoints.map (fun p => "- " ++ p)) ++ "\n\n")
          ++ (if !a.actionItems.isEmpty then
                "## Action Items\n\n"
                  ++ strJoin "\n" (a.actionItems.map (fun i => "- [ ] " ++ i)) ++ "\n\n"
              else "")
          ++ (if !a.followUps.isEmpty then
                "## Follow-up Questions\n\n"
                  ++ strJoin "\n" (a.followUps.map (fun q => "- " ++ q)) ++ "\n\n"
              else "")
      | none => ""
  frontmatter ++ header ++ audioEmbed ++ speakerInstructions ++ toc
    ++ analysisSections
    ++ formatTranscriptionSection includeTimestamps transcription
    ++ "---\n\n*Generated with Obsidian Audio Transcription Plugin*"

/-- The terminal conditions a job can reach in the transcribe method. -/
inductive PipelineState
  | Complete
  | Cancelled
  | Failed
deriving Repr, DecidableEq

/-- Outcomes of the external steps of one job.  transcriptionOutcomes k /
analysisOutcomes k give the result the k-th call of transcribeAudio /
analyzeTranscription would settle with; the indexed form lets theorems
speak about calls the method does or does not make.  cancelledFlag is what
progressModal.isCancelled() reports when an error is caught. -/
structure PipelineEnv where
  validation : Except String Unit
  transcriptionOutcomes : Nat → Except String TranscriptionResult
  analysisOutcomes : Nat → Except String AnalysisResult
  saveOutcome : Except String Unit
  cancelledFlag : Bool

/-- Observable outcome of one transcribe run. -/
structure PipelineResult where
  state : PipelineState
  persistedDoc : Option String
  analysisUsed : Option AnalysisResult
  analysisErrorUsed : Option String
  transcriptionCalls : Nat
  analysisCalls : Nat

/-- transcribe (lines 51-161): validation and the single transcription
call in one try (a caught error ends the job: Cancelled when the modal was
cancelled, otherwise Failed, nothing persisted); then analysis with
exactly one retry, a second failure being recorded as analysisError rather
than thrown; then createMarkdownFile with the analysis (or null) and the
analysisError, reaching Complete when the save succeeds. -/
def transcribe (env : PipelineEnv) (enableDiarization includeTimestamps : Bool)
    (audio : AudioFileMeta) (formattedDate : String) : PipelineResult :=
  match env.validation with
  | .error _ =>
    if env.cancelledFlag then ⟨.Cancelled, none, none, none, 0, 0⟩
    else ⟨.Failed, none, none, none, 0, 0⟩
  | .ok () =>
    match env.transcriptionOutcomes 0 with
    | .error _ =>
      if env.cancelledFlag then ⟨.Cancelled, none, none, none, 1, 0⟩
      else ⟨.Failed, none, none, none, 1, 0⟩
    | .ok transcriptionResult =>
      let step2 :
          Option AnalysisResult × Option String × Nat :=
        match env.analysisOutcomes 0 with
        | .ok a => (some a, none, 1)
        | .error _ =>
          match env.analysisOutcomes 1 with
          | .ok a => (some a, none, 2)
          | .error e2 => (none, some (getErrorMessage e2), 2)
      match env.saveOutcome with
      | .error _ => ⟨.Failed, none, step2.1, step2.2.1, 1, step2.2.2⟩
      | .ok () =>
        ⟨.Complete,
          some (formatMarkdown enableDiarization includeTimestamps audio
            formattedDate transcriptionResult step2.1 step2.2.1),
          step2.1, step2.2.1, 1, step2.2.2⟩

/-- cancel (lines 628-632): forward to the three processors. -/
def cancel (localState : LocalWhisperProcessor.State)
    (cloudState : CloudWhisperProcessor.State) :
    (LocalWhisperProcessor.State × CloudWhisperProcessor.State)
      × List LocalWhisperProcessor.CancelAction :=
  let localOut := LocalWhisperProcessor.cancel localState
  let cloudOut := CloudWhisperProcessor.cancel cloudState
  ((localOut.1, cloudOut.1), localOut.2 ++ cloudOut.2 ++ OpenRouterProcessor.cancel)

end TranscriptionService

/-!
## Shared lemmas
-/

/-- Deleting an absent element from the in-flight registry is the
identity. -/
theorem setDelete_not_mem (s : List String) (m : String) (h : m ∉ s) :
    ModelManager.setDelete s m = s := by
  unfold ModelManager.setDelete
  induction s with
  | nil => rfl
  | cons a as ih =>
    have ha : a ≠ m := by
      intro hEq
      exact h (hEq ▸ List.mem_cons_self a as)
    have has : m ∉ as := fun hm => h (List.mem_cons_of_mem a hm)
    simp [List.filter, ha, ih has]
    intro x hx hxm
    exact has (hxm ▸ hx)

/-- If the lower-cased pattern occurs nowhere in the lower-cased content,
the section extractor finds no match position. -/
theorem extractSectionGo_eq_none (pat : List Char) (optS : Bool)
    (l : List Char)
    (h : listContainsSeg (pat.map Char.toLower) (l.map Char.toLower) = false) :
    OpenRouterProcessor.extractSectionGo pat optS l = none := by
  induction l with
  | nil => rfl
  | cons c rest ih =>
    rw [List.map_cons, listContainsSeg] at h
    rw [Bool.or_eq_false_iff] at h
    have hstart : OpenRouterProcessor.startsWithCI pat (c :: rest) = false := by
      unfold OpenRouterProcessor.startsWithCI
      rw [List.map_cons]
      exact h.1
    unfold OpenRouterProcessor.extractSectionGo
    rw [hstart]
    simp only [Bool.false_eq_true, if_false]
    exact ih h.2

/-!
## Claim theorems
-/

/-- C3, counterexample.  While a cloud transcription is in flight (so the
local processor holds no subprocess), TranscriptionService.cancel issues
no cancellation action at all: the remote invoker retains no handle of the
in-flight request and its cancel body is empty, so no abort reaches the
request — contrary to the claim that for both engine-invoker variants the
in-flight subprocess/request is killed or aborted. -/
theorem c3_cloud_cancel_is_noop :
    (TranscriptionService.cancel ⟨none⟩ CloudWhisperProcessor.initial).2 = [] := rfl

/-- C3 as amended: the local variant retains the active subprocess handle
and cancel kills exactly that subprocess and clears the handle; the remote
variants (CloudWhisperProcessor and OpenRouterProcessor) retain no request
handle and their cancel methods are no-ops, so signalling cancellation
aborts nothing on their behalf; the service-level cancel therefore emits
exactly the local kill. -/
theorem c3_cancel_amended :
    (∀ pid, LocalWhisperProcessor.cancel ⟨some pid⟩
        = (⟨none⟩, [.killProcess pid]))
    ∧ LocalWhisperProcessor.cancel ⟨none⟩ = (⟨none⟩, [])
    ∧ (∀ st, CloudWhisperProcessor.cancel st = (st, []))
    ∧ OpenRouterProcessor.cancel = []
    ∧ (∀ pid st, (TranscriptionService.cancel ⟨some pid⟩ st).2
        = [.killProcess pid]) :=
  ⟨fun _ => rfl, rfl, fun _ => rfl, rfl, fun _ _ => rfl⟩

/-- C7: the code decides the no-op branch of convertToWav from the path
suffix alone.  The failing input is a stereo 44.1 kHz PCM WAV file named
recording.wav: it is not in the engine format (conformant is false), yet
for every ffmpeg availability and every conversion outcome convertToWav
returns the source path itself and never invokes the conversion tool —
the verification promised by the comment on line 119 (Verify it is 16kHz
mono - if not, convert it) is not implemented.  A non-WAV path, by
contrast, is converted to the distinct temporary artifact. -/
theorem c7_nonconformant_wav_not_converted :
    (∀ (ffmpegAvailable : Bool) (ffmpegRun : Except String Unit),
        LocalWhisperProcessor.convertToWav ffmpegAvailable ffmpegRun "recording.wav"
          = .ok ⟨"recording.wav", false⟩)
    ∧ LocalWhisperProcessor.conformant ⟨2, 44100, true⟩ = false
    ∧ LocalWhisperProcessor.isWavPath "recording.wav" = true
    ∧ LocalWhisperProcessor.convertToWav true (.ok ()) "recording.m4a"
        = .ok ⟨"recording.temp.wav", true⟩ := by
  refine ⟨fun fa run => ?_, by decide, by decide, rfl⟩
  unfold LocalWhisperProcessor.convertToWav
  have hw : LocalWhisperProcessor.isWavPath "recording.wav" = true := by decide
  rw [hw]
  simp

/-- C8: when no structured JSON payload can be located in the engine
output, parseWhisperOutput does not fail: whatever the JSON branch would
do, it returns the trimmed raw output as the transcript text, with exactly
one segment carrying that entire text. -/
theorem c8_no_payload_single_segment
    (jsonBranch : String → Except String TranscriptionResult)
    (settingsLanguage output : String)
    (h : LocalWhisperProcessor.hasJsonPayload output = false) :
    LocalWhisperProcessor.parseWhisperOutput jsonBranch settingsLanguage output
      = .ok
          { text := jsTrim output
            segments := [⟨0, 0, jsTrim output, none⟩]
            language := if settingsLanguage = "" then "auto" else settingsLanguage
            duration := 0
            speakers := none } := by
  unfold LocalWhisperProcessor.parseWhisperOutput
  rw [h]
  simp

/-- C8 witness: a plain log line holds no payload and is wrapped into the
single whole-text segment. -/
theorem c8_no_payload_single_segment_witness :
    LocalWhisperProcessor.hasJsonPayload " [00:00.000] plain log text " = false
    ∧ LocalWhisperProcessor.parseWhisperOutput (fun _ => .error "unused") "auto"
        " [00:00.000] plain log text "
      = .ok
          { text := jsTrim " [00:00.000] plain log text "
            segments := [⟨0, 0, jsTrim " [00:00.000] plain log text ", none⟩]
            language := if "auto" = "" then "auto" else "auto"
            duration := 0
            speakers := none } :=
  ⟨by decide,
    c8_no_payload_single_segment (fun _ => .error "unused") "auto"
      " [00:00.000] plain log text " (by decide)⟩

/-- C9: parseAnalysisResult is total (it returns an AnalysisResult for
every response string; the Lean model raises nothing by construction, as
the source performs only regex matching, mapping and trimming), and each
of the four labelled sections degrades independently: when a section
heading does not occur in the response (case-insensitively), the
corresponding field is the empty string (summary) or the empty list (key
points, action items, follow-up questions) instead of a failure of the
whole analysis. -/
theorem c9_missing_sections_empty (content : String) :
    (strIncludesCI content "## Summary" = false →
      (OpenRouterProcessor.parseAnalysisResult content).summary = "")
    ∧ (strIncludesCI content "## Key Points" = false →
      (OpenRouterProcessor.parseAnalysisResult content).keyPoints = [])
    ∧ (strIncludesCI content "## Action Items" = false →
      (OpenRouterProcessor.parseAnalysisResult content).actionItems = [])
    ∧ (strIncludesCI content "## Follow-up Question" = false →
      (OpenRouterProcessor.parseAnalysisResult content).followUps = []) := by
  unfold OpenRouterProcessor.parseAnalysisResult
  refine ⟨fun h => ?_, fun h => ?_, fun h => ?_, fun h => ?_⟩
  all_goals
    rw [extractSectionGo_eq_none _ _ _ h]

/-- C9 witness: a prose-only model response yields the all-empty
AnalysisResult. -/
theorem c9_missing_sections_empty_witness :
    (strIncludesCI "The call covered various topics." "## Summary" = false →
      (OpenRouterProcessor.parseAnalysisResult "The call covered various topics.").summary = "")
    ∧ (strIncludesCI "The call covered various topics." "## Key Points" = false →
      (OpenRouterProcessor.parseAnalysisResult "The call covered various topics.").keyPoints = [])
    ∧ (strIncludesCI "The call covered various topics." "## Action Items" = false →
      (OpenRouterProcessor.parseAnalysisResult "The call covered various topics.").actionItems = [])
    ∧ (strIncludesCI "The call covered various topics." "## Follow-up Question" = false →
      (OpenRouterProcessor.parseAnalysisResult "The call covered various topics.").followUps = []) :=
  c9_missing_sections_empty "The call covered various topics."

/-- C10: the two validity predicates disagree on every model file of at
most 1000000 bytes: checkModelExists is true as soon as any file sits at
the install path while validateModel requires strictly more than 1000000
bytes; and validateSetup in local mode (with the binary present and valid
analysis settings) passes on mere existence — it gates on checkModelExists,
not on validateModel. -/
theorem c10_validity_predicates_disagree (fs : ModelManager.FS)
    (modelsDir modelSize : String) (n : Nat)
    (hfile : fs (ModelManager.getModelPath modelsDir modelSize) = some n)
    (hsmall : n ≤ 1000000) :
    ModelManager.checkModelExists fs modelsDir modelSize = true
    ∧ ModelManager.validateModel fs modelsDir modelSize = false
    ∧ TranscriptionService.validateSetup true fs modelsDir
        ⟨"local", modelSize, "", "sk-or-abc", "meta-llama/llama-3.2-3b-instruct"⟩
      = .ok () := by
  have hcheck : ModelManager.checkModelExists fs modelsDir modelSize = true := by
    unfold ModelManager.checkModelExists
    rw [hfile]
    rfl
  refine ⟨hcheck, ?_, ?_⟩
  · unfold ModelManager.validateModel
    rw [hfile]
    simpa using Nat.not_lt.mpr hsmall
  · unfold TranscriptionService.validateSetup
    rw [hcheck]
    rfl

/-- C10 witness: a 500000-byte file at the install path of the medium
model is reported installed by checkModelExists, rejected by
validateModel, and accepted by the pipeline's pre-transcription
validation. -/
theorem c10_validity_predicates_disagree_witness :
    ((fun p => if p = ModelManager.getModelPath "vault/models" "medium"
        then some 500000 else none) : ModelManager.FS)
        (ModelManager.getModelPath "vault/models" "medium") = some 500000
    ∧ 500000 ≤ 1000000
    ∧ (ModelManager.checkModelExists
          (fun p => if p = ModelManager.getModelPath "vault/models" "medium"
            then some 500000 else none) "vault/models" "medium" = true
      ∧ ModelManager.validateModel
          (fun p => if p = ModelManager.getModelPath "vault/models" "medium"
            then some 500000 else none) "vault/models" "medium" = false
      ∧ TranscriptionService.validateSetup true
          (fun p => if p = ModelManager.getModelPath "vault/models" "medium"
            then some 500000 else none) "vault/models"
          ⟨"local", "medium", "", "sk-or-abc", "meta-llama/llama-3.2-3b-instruct"⟩
        = .ok ()) :=
  ⟨by simp, by decide,
    c10_validity_predicates_disagree _ "vault/models" "medium" 500000
      (by simp) (by decide)⟩


/-- Retry loop, first attempt succeeding: one attempt, no backoff. -/
theorem downloadWithRetries_ok (outcomes : Nat → Except String Unit)
    (h0 : outcomes 0 = .ok ()) :
    ModelManager.downloadWithRetries outcomes ModelManager.maxRetriesDefault
      = ⟨.ok (), 1, 0⟩ := by
  show ModelManager.downloadLoopGo outcomes 0 2
    "Download failed after multiple attempts" = _
  rw [show (2 : Nat) = 1 + 1 from rfl]
  unfold ModelManager.downloadLoopGo
  rw [h0]

/-- Retry loop, first attempt failing with a cancellation message: the
error is rethrown with no second attempt and no backoff. -/
theorem downloadWithRetries_cancelled (outcomes : Nat → Except String Unit)
    (msg : String) (h0 : outcomes 0 = .error msg)
    (hc : strIncludes msg "cancelled" = true) :
    ModelManager.downloadWithRetries outcomes ModelManager.maxRetriesDefault
      = ⟨.error msg, 1, 0⟩ := by
  show ModelManager.downloadLoopGo outcomes 0 2
    "Download failed after multiple attempts" = _
  rw [show (2 : Nat) = 1 + 1 from rfl]
  unfold ModelManager.downloadLoopGo
  rw [h0]
  simp [hc]

/-- Retry loop, first attempt failing without a cancellation message: one
backoff, then the second attempt decides the result (two attempts in
total, whatever the second one settles with). -/
theorem downloadWithRetries_retry (outcomes : Nat → Except String Unit)
    (msg : String) (h0 : outcomes 0 = .error msg)
    (hc : strIncludes msg "cancelled" = false) :
    ModelManager.downloadWithRetries outcomes ModelManager.maxRetriesDefault
      = ⟨(ModelManager.downloadLoopGo outcomes 1 1 msg).result, 2, 1⟩ := by
  show ModelManager.downloadLoopGo outcomes 0 2
    "Download failed after multiple attempts" = _
  rw [show (2 : Nat) = 1 + 1 from rfl]
  unfold ModelManager.downloadLoopGo
  rw [h0]
  simp only [hc, Bool.false_eq_true, if_false, one_ne_zero]
  cases h1 : outcomes 1 with
  | ok u =>
    cases u
    have hinner : ModelManager.downloadLoopGo outcomes (0 + 1) 1 msg
        = ⟨.ok (), 1, 0⟩ := by
      show ModelManager.downloadLoopGo outcomes 1 (0 + 1) msg = _
      unfold ModelManager.downloadLoopGo
      rw [h1]
    rw [hinner]
  | error msg2 =>
    have hinner : ModelManager.downloadLoopGo outcomes (0 + 1) 1 msg
        = ⟨.error msg2, 1, 0⟩ := by
      show ModelManager.downloadLoopGo outcomes 1 (0 + 1) msg = _
      unfold ModelManager.downloadLoopGo
      rw [h1]
      cases hc2 : strIncludes msg2 "cancelled" with
      | true => simp [hc2]
      | false => simp [hc2]
    rw [hinner]
    cases hc2 : strIncludes msg2 "cancelled" with
    | true => simp [hc2]
    | false => simp [hc2]

/-- C5: downloadModel (at its default of 2 attempts) throws the
already-in-progress rejection exactly when an acquisition for the same
model size is in flight; the rejection is immediate (zero attempts are
started); an accepted call starts at least one attempt; and whatever the
attempts settle with — success, failure or cancellation — the in-flight
marker is out of the registry afterwards, so a later request for the same
size is accepted again. -/
theorem c5_serialized_per_model_size (inFlight : List String)
    (modelSize : String) (outcomes : Nat → Except String Unit) :
    ((ModelManager.downloadModel inFlight modelSize outcomes
        ModelManager.maxRetriesDefault).rejectedInProgress = true
      ↔ modelSize ∈ inFlight)
    ∧ ((ModelManager.downloadModel inFlight modelSize outcomes
        ModelManager.maxRetriesDefault).rejectedInProgress = true →
        (ModelManager.downloadModel inFlight modelSize outcomes
            ModelManager.maxRetriesDefault).result
          = .error (ModelManager.alreadyInProgressMsg modelSize)
        ∧ (ModelManager.downloadModel inFlight modelSize outcomes
            ModelManager.maxRetriesDefault).attemptsMade = 0)
    ∧ ((ModelManager.downloadModel inFlight modelSize outcomes
        ModelManager.maxRetriesDefault).rejectedInProgress = false →
        1 ≤ (ModelManager.downloadModel inFlight modelSize outcomes
            ModelManager.maxRetriesDefault).attemptsMade)
    ∧ (ModelManager.downloadModel inFlight modelSize outcomes
        ModelManager.maxRetriesDefault).inFlightAfter = inFlight := by
  unfold ModelManager.downloadModel
  by_cases hm : modelSize ∈ inFlight
  · rw [if_pos hm]
    exact ⟨⟨fun _ => hm, fun _ => rfl⟩, fun _ => ⟨rfl, rfl⟩,
      fun h => Bool.noConfusion h, rfl⟩
  · rw [if_neg hm]
    have hatt : 1 ≤ (ModelManager.downloadWithRetries outcomes
        ModelManager.maxRetriesDefault).attemptsMade := by
      cases h0 : outcomes 0 with
      | ok u =>
        cases u
        rw [downloadWithRetries_ok outcomes h0]
      | error msg =>
        cases hcs : strIncludes msg "cancelled" with
        | true => rw [downloadWithRetries_cancelled outcomes msg h0 hcs]
        | false =>
          rw [downloadWithRetries_retry outcomes msg h0 hcs]
          exact Nat.le_of_lt Nat.one_lt_two
    have hdel : ModelManager.setDelete
        (ModelManager.setAdd inFlight modelSize) modelSize = inFlight := by
      unfold ModelManager.setAdd
      rw [if_neg hm]
      have hcons : ModelManager.setDelete (modelSize :: inFlight) modelSize
          = ModelManager.setDelete inFlight modelSize := by
        unfold ModelManager.setDelete
        rw [List.filter_cons]
        simp
      rw [hcons, setDelete_not_mem inFlight modelSize hm]
    exact ⟨⟨fun h => Bool.noConfusion h, fun h => absurd h hm⟩,
      fun h => Bool.noConfusion h, fun _ => hatt, hdel⟩

/-- C5 witness: with an empty registry and a first attempt that is
cancelled, the call is accepted (not rejected), starts an attempt, and
leaves the registry empty again. -/
theorem c5_serialized_per_model_size_witness :
    ((ModelManager.downloadModel [] "medium"
        (fun _ => .error "Download cancelled by user")
        ModelManager.maxRetriesDefault).rejectedInProgress = true
      ↔ "medium" ∈ ([] : List String))
    ∧ ((ModelManager.downloadModel [] "medium"
        (fun _ => .error "Download cancelled by user")
        ModelManager.maxRetriesDefault).rejectedInProgress = true →
        (ModelManager.downloadModel [] "medium"
            (fun _ => .error "Download cancelled by user")
            ModelManager.maxRetriesDefault).result
          = .error (ModelManager.alreadyInProgressMsg "medium")
        ∧ (ModelManager.downloadModel [] "medium"
            (fun _ => .error "Download cancelled by user")
            ModelManager.maxRetriesDefault).attemptsMade = 0)
    ∧ ((ModelManager.downloadModel [] "medium"
        (fun _ => .error "Download cancelled by user")
        ModelManager.maxRetriesDefault).rejectedInProgress = false →
        1 ≤ (ModelManager.downloadModel [] "medium"
            (fun _ => .error "Download cancelled by user")
            ModelManager.maxRetriesDefault).attemptsMade)
    ∧ (ModelManager.downloadModel [] "medium"
        (fun _ => .error "Download cancelled by user")
        ModelManager.maxRetriesDefault).inFlightAfter = [] :=
  c5_serialized_per_model_size [] "medium"
    (fun _ => .error "Download cancelled by user")

/-- C6, counterexample.  A first acquisition attempt failing with the
explicit not-found style error HTTP 404: Not Found is followed by a second
attempt: the loop retries every failure whose message lacks the substring
cancelled, so the claim that a not-configured / not-found style failure is
never followed by another attempt is false. -/
theorem c6_not_found_is_retried :
    (ModelManager.downloadWithRetries
        (fun k => if k = 0 then .error "HTTP 404: Not Found" else .ok ())
        ModelManager.maxRetriesDefault).attemptsMade = 2
    ∧ (ModelManager.downloadWithRetries
        (fun k => if k = 0 then .error "HTTP 404: Not Found" else .ok ())
        ModelManager.maxRetriesDefault).result = .ok () :=
  ⟨rfl, rfl⟩

/-- C6 as amended: downloadModel performs at most 2 acquisition attempts
in total, with a backoff between two attempts (backoffs = attempts - 1); a
first attempt failing with user cancellation (message containing
cancelled) is never followed by another attempt and the cancellation is
rethrown; every other first-attempt failure — explicit not-configured /
not-found style errors included — is followed by exactly one retry. -/
theorem c6_retry_policy_amended (outcomes : Nat → Except String Unit) :
    (ModelManager.downloadWithRetries outcomes
        ModelManager.maxRetriesDefault).attemptsMade ≤ 2
    ∧ (ModelManager.downloadWithRetries outcomes
        ModelManager.maxRetriesDefault).backoffsTaken
      = (ModelManager.downloadWithRetries outcomes
          ModelManager.maxRetriesDefault).attemptsMade - 1
    ∧ (outcomes 0 = .ok () →
        (ModelManager.downloadWithRetries outcomes
            ModelManager.maxRetriesDefault).attemptsMade = 1)
    ∧ (∀ msg, outcomes 0 = .error msg → strIncludes msg "cancelled" = true →
        (ModelManager.downloadWithRetries outcomes
            ModelManager.maxRetriesDefault).attemptsMade = 1
        ∧ (ModelManager.downloadWithRetries outcomes
            ModelManager.maxRetriesDefault).result = .error msg)
    ∧ (∀ msg, outcomes 0 = .error msg → strIncludes msg "cancelled" = false →
        (ModelManager.downloadWithRetries outcomes
            ModelManager.maxRetriesDefault).attemptsMade = 2) := by
  cases h0 : outcomes 0 with
  | ok u =>
    cases u
    rw [downloadWithRetries_ok outcomes h0]
    exact ⟨by decide, rfl, fun _ => rfl,
      fun msg hmsg _ => Except.noConfusion hmsg,
      fun msg hmsg _ => Except.noConfusion hmsg⟩
  | error msg0 =>
    cases hcs : strIncludes msg0 "cancelled" with
    | true =>
      rw [downloadWithRetries_cancelled outcomes msg0 h0 hcs]
      refine ⟨(by decide : (1 : Nat) ≤ 2), rfl, fun hok => Except.noConfusion hok,
        fun msg hmsg hc => ?_, fun msg hmsg hc => ?_⟩
      · cases hmsg
        exact ⟨rfl, rfl⟩
      · cases hmsg
        rw [hcs] at hc
        exact Bool.noConfusion hc
    | false =>
      rw [downloadWithRetries_retry outcomes msg0 h0 hcs]
      refine ⟨(by decide : (2 : Nat) ≤ 2), rfl, fun hok => Except.noConfusion hok,
        fun msg hmsg hc => ?_, fun msg hmsg hc => rfl⟩
      cases hmsg
      rw [hcs] at hc
      exact Bool.noConfusion hc

/-- C6 witness: a first attempt failing with a stall message (transient,
not a cancellation) is retried once: two attempts in total. -/
theorem c6_retry_policy_amended_witness :
    ((ModelManager.downloadWithRetries
        (fun k => if k = 0
          then .error "Download stalled - no data received for 120 seconds"
          else .ok ())
        ModelManager.maxRetriesDefault).attemptsMade ≤ 2
    ∧ (ModelManager.downloadWithRetries
        (fun k => if k = 0
          then .error "Download stalled - no data received for 120 seconds"
          else .ok ())
        ModelManager.maxRetriesDefault).backoffsTaken
      = (ModelManager.downloadWithRetries
          (fun k => if k = 0
            then .error "Download stalled - no data received for 120 seconds"
            else .ok ())
          ModelManager.maxRetriesDefault).attemptsMade - 1)
    ∧ (ModelManager.downloadWithRetries
        (fun k => if k = 0
          then .error "Download stalled - no data received for 120 seconds"
          else .ok ())
        ModelManager.maxRetriesDefault).attemptsMade = 2 := by
  have h := c6_retry_policy_amended
    (fun k => if k = 0
      then .error "Download stalled - no data received for 120 seconds"
      else .ok ())
  exact ⟨⟨h.1, h.2.1⟩,
    h.2.2.2.2 "Download stalled - no data received for 120 seconds" rfl
      (by decide)⟩

/-- C1: the transcription step is not retried.  Concrete failing job: a
first transcription call failing with the transient network error
fetch failed (the job not cancelled; a second call would have succeeded).
The transcribe method of the revision under verification reaches Failed
after exactly one transcription call and persists no document — the
classifier shouldRetryError, which marks this very error as retryable, is
dead code there (defined, never called), and the repository's own README,
testing guide and project plan all promise one automatic retry. -/
theorem c1_transcription_not_retried :
    (TranscriptionService.transcribe
        { validation := .ok ()
          transcriptionOutcomes := fun k =>
            if k = 0 then .error "fetch failed"
            else .ok { text := "hello world"
                       segments := [⟨0, 2, "hello world", none⟩]
                       language := "en", duration := 2, speakers := none }
          analysisOutcomes := fun _ => .ok ⟨"a summary", [], [], []⟩
          saveOutcome := .ok ()
          cancelledFlag := false }
        false false ⟨"a.m4a", "a", "a.m4a"⟩ "2025-01-01").state
      = .Failed
    ∧ (TranscriptionService.transcribe
        { validation := .ok ()
          transcriptionOutcomes := fun k =>
            if k = 0 then .error "fetch failed"
            else .ok { text := "hello world"
                       segments := [⟨0, 2, "hello world", none⟩]
                       language := "en", duration := 2, speakers := none }
          analysisOutcomes := fun _ => .ok ⟨"a summary", [], [], []⟩
          saveOutcome := .ok ()
          cancelledFlag := false }
        false false ⟨"a.m4a", "a", "a.m4a"⟩ "2025-01-01").transcriptionCalls
      = 1
    ∧ (TranscriptionService.transcribe
        { validation := .ok ()
          transcriptionOutcomes := fun k =>
            if k = 0 then .error "fetch failed"
            else .ok { text := "hello world"
                       segments := [⟨0, 2, "hello world", none⟩]
                       language := "en", duration := 2, speakers := none }
          analysisOutcomes := fun _ => .ok ⟨"a summary", [], [], []⟩
          saveOutcome := .ok ()
          cancelledFlag := false }
        false false ⟨"a.m4a", "a", "a.m4a"⟩ "2025-01-01").persistedDoc
      = none
    ∧ TranscriptionService.shouldRetryError "fetch failed" = true
    ∧ ((fun k =>
          if k = 0 then (.error "fetch failed" : Except String TranscriptionResult)
          else .ok { text := "hello world"
                     segments := [⟨0, 2, "hello world", none⟩]
                     language := "en", duration := 2, speakers := none }) 1)
      = .ok { text := "hello world"
              segments := [⟨0, 2, "hello world", none⟩]
              language := "en", duration := 2, speakers := none } :=
  ⟨rfl, rfl, rfl, by decide, rfl⟩

/-- Pushing a contiguous-substring witness under a left factor. -/
theorem strSeg_appendLeft (x : String) {needle hay : String}
    (h : strSeg needle hay) : strSeg needle (x ++ hay) := by
  obtain ⟨p, q, hh⟩ := h
  exact ⟨x.data ++ p, q, by rw [strData_append, hh]; simp [List.append_assoc]⟩

/-- Pushing a contiguous-substring witness under a right factor. -/
theorem strSeg_appendRight (x : String) {needle hay : String}
    (h : strSeg needle hay) : strSeg needle (hay ++ x) := by
  obtain ⟨p, q, hh⟩ := h
  exact ⟨p, q ++ x.data,
    by rw [strData_append, hh]; simp [List.append_assoc]⟩

/-- A string is a contiguous substring of itself. -/
theorem strSeg_self (s : String) : strSeg s s :=
  ⟨[], [], by simp⟩

/-- A document produced with a failed analysis surfaces the failure reason
and the full transcription section. -/
theorem formatMarkdown_surfaces (ed it : Bool)
    (audio : TranscriptionService.AudioFileMeta) (fd : String)
    (t : TranscriptionResult) (e : String) :
    strSeg e (TranscriptionService.formatMarkdown ed it audio fd t none (some e))
    ∧ strSeg (TranscriptionService.formatTranscriptionSection it t)
        (TranscriptionService.formatMarkdown ed it audio fd t none (some e)) := by
  unfold TranscriptionService.formatMarkdown
  constructor
  · apply strSeg_appendRight
    apply strSeg_appendRight
    apply strSeg_appendLeft
    apply strSeg_appendRight
    apply strSeg_appendLeft
    exact strSeg_self e
  · apply strSeg_appendRight
    apply strSeg_appendLeft
    exact strSeg_self _

/-- C2: when transcription succeeds and both the analysis call and its
single retry fail, the job still reaches Complete: exactly two analysis
calls are made, the AnalysisResult handed to the document step is absent,
and the persisted document surfaces the (rewritten) analysis failure
reason together with the full transcription section. -/
theorem c2_analysis_failure_not_fatal (env : TranscriptionService.PipelineEnv)
    (ed it : Bool) (audio : TranscriptionService.AudioFileMeta) (fd : String)
    (tr : TranscriptionResult) (e1 e2 : String)
    (hv : env.validation = .ok ())
    (ht : env.transcriptionOutcomes 0 = .ok tr)
    (ha1 : env.analysisOutcomes 0 = .error e1)
    (ha2 : env.analysisOutcomes 1 = .error e2)
    (hs : env.saveOutcome = .ok ()) :
    (TranscriptionService.transcribe env ed it audio fd).state
      = TranscriptionService.PipelineState.Complete
    ∧ (TranscriptionService.transcribe env ed it audio fd).analysisUsed = none
    ∧ (TranscriptionService.transcribe env ed it audio fd).analysisCalls = 2
    ∧ (TranscriptionService.transcribe env ed it audio fd).analysisErrorUsed
      = some (TranscriptionService.getErrorMessage e2)
    ∧ ∃ doc, (TranscriptionService.transcribe env ed it audio fd).persistedDoc
          = some doc
        ∧ strSeg (TranscriptionService.getErrorMessage e2) doc
        ∧ strSeg (TranscriptionService.formatTranscriptionSection it tr) doc := by
  have hstep : TranscriptionService.transcribe env ed it audio fd
      = ⟨TranscriptionService.PipelineState.Complete,
          some (TranscriptionService.formatMarkdown ed it audio fd tr none
            (some (TranscriptionService.getErrorMessage e2))),
          none, some (TranscriptionService.getErrorMessage e2), 1, 2⟩ := by
    unfold TranscriptionService.transcribe
    rw [hv, ht, ha1, ha2, hs]
  rw [hstep]
  exact ⟨rfl, rfl, rfl, rfl, _, rfl,
    (formatMarkdown_surfaces ed it audio fd tr
      (TranscriptionService.getErrorMessage e2)).1,
    (formatMarkdown_surfaces ed it audio fd tr
      (TranscriptionService.getErrorMessage e2)).2⟩

/-- C2 witness: a job whose two analysis calls fail with a rate-limit
error still completes, with the transcript-only document carrying the
failure reason. -/
theorem c2_analysis_failure_not_fatal_witness :
    (TranscriptionService.transcribe
        { validation := .ok ()
          transcriptionOutcomes := fun _ =>
            .ok { text := "hello world"
                  segments := [⟨0, 2, "hello world", none⟩]
                  language := "en", duration := 2, speakers := none }
          analysisOutcomes := fun k =>
            if k = 0 then .error "429" else .error "429 rate limit"
          saveOutcome := .ok ()
          cancelledFlag := false }
        false true ⟨"a.m4a", "a", "a.m4a"⟩ "2025-01-01").state
      = TranscriptionService.PipelineState.Complete
    ∧ (TranscriptionService.transcribe
        { validation := .ok ()
          transcriptionOutcomes := fun _ =>
            .ok { text := "hello world"
                  segments := [⟨0, 2, "hello world", none⟩]
                  language := "en", duration := 2, speakers := none }
          analysisOutcomes := fun k =>
            if k = 0 then .error "429" else .error "429 rate limit"
          saveOutcome := .ok ()
          cancelledFlag := false }
        false true ⟨"a.m4a", "a", "a.m4a"⟩ "2025-01-01").analysisUsed = none
    ∧ (TranscriptionService.transcribe
        { validation := .ok ()
          transcriptionOutcomes := fun _ =>
            .ok { text := "hello world"
                  segments := [⟨0, 2, "hello world", none⟩]
                  language := "en", duration := 2, speakers := none }
          analysisOutcomes := fun k =>
            if k = 0 then .error "429" else .error "429 rate limit"
          saveOutcome := .ok ()
          cancelledFlag := false }
        false true ⟨"a.m4a", "a", "a.m4a"⟩ "2025-01-01").analysisCalls = 2
    ∧ (TranscriptionService.transcribe
        { validation := .ok ()
          transcriptionOutcomes := fun _ =>
            .ok { text := "hello world"
                  segments := [⟨0, 2, "hello world", none⟩]
                  language := "en", duration := 2, speakers := none }
          analysisOutcomes := fun k =>
            if k = 0 then .error "429" else .error "429 rate limit"
          saveOutcome := .ok ()
          cancelledFlag := false }
        false true ⟨"a.m4a", "a", "a.m4a"⟩ "2025-01-01").analysisErrorUsed
      = some (TranscriptionService.getErrorMessage "429 rate limit")
    ∧ ∃ doc, (TranscriptionService.transcribe
          { validation := .ok ()
            transcriptionOutcomes := fun _ =>
              .ok { text := "hello world"
                    segments := [⟨0, 2, "hello world", none⟩]
                    language := "en", duration := 2, speakers := none }
            analysisOutcomes := fun k =>
              if k = 0 then .error "429" else .error "429 rate limit"
            saveOutcome := .ok ()
            cancelledFlag := false }
          false true ⟨"a.m4a", "a", "a.m4a"⟩ "2025-01-01").persistedDoc
        = some doc
        ∧ strSeg (TranscriptionService.getErrorMessage "429 rate limit") doc
        ∧ strSeg (TranscriptionService.formatTranscriptionSection true
            { text := "hello world"
              segments := [⟨0, 2, "hello world", none⟩]
              language := "en", duration := 2, speakers := none }) doc :=
  c2_analysis_failure_not_fatal
    { validation := .ok ()
      transcriptionOutcomes := fun _ =>
        .ok { text := "hello world"
              segments := [⟨0, 2, "hello world", none⟩]
              language := "en", duration := 2, speakers := none }
      analysisOutcomes := fun k =>
        if k = 0 then .error "429" else .error "429 rate limit"
      saveOutcome := .ok ()
      cancelledFlag := false }
    false true ⟨"a.m4a", "a", "a.m4a"⟩ "2025-01-01"
    { text := "hello world"
      segments := [⟨0, 2, "hello world", none⟩]
      language := "en", duration := 2, speakers := none }
    "429" "429 rate limit" rfl rfl rfl rfl rfl

/-- The temporary download path is a different path from the install
path. -/
theorem tempDownloadPath_ne (mp : String) :
    ModelManager.tempDownloadPath mp ≠ mp := by
  intro h
  have hd := congrArg String.data h
  rw [ModelManager.tempDownloadPath, strData_append] at hd
  have hlen := congrArg List.length hd
  rw [List.length_append] at hlen
  have h9 : (".download" : String).data.length = 9 := rfl
  rw [h9] at hlen
  omega

/-- C4: for every acquisition attempt, bytes are streamed only to the
temporary path (a path distinct from the install path); an attempt that
ends in a network error, a user cancellation or an unreachable host leaves
the install path exactly as it was (so checkModelExists answers afterwards
what it answered before) and deletes the temporary file; only a fully
successful transfer changes the install path, installing the complete
file; and at every intermediate file-system state of any attempt the
install path holds its original content, nothing, or (solely in the
successful case) the complete file — never the partial bytes. -/
theorem c4_failed_attempt_invisible (fs : ModelManager.FS)
    (modelsDir modelSize : String) :
    (∀ msg n,
      (ModelManager.downloadModelAttempt fs modelsDir modelSize
          (.netError msg n)).1 (ModelManager.getModelPath modelsDir modelSize)
        = fs (ModelManager.getModelPath modelsDir modelSize)
      ∧ (ModelManager.downloadModelAttempt fs modelsDir modelSize
          (.netError msg n)).1
          (ModelManager.tempDownloadPath
            (ModelManager.getModelPath modelsDir modelSize)) = none
      ∧ ModelManager.checkModelExists
          (ModelManager.downloadModelAttempt fs modelsDir modelSize
            (.netError msg n)).1 modelsDir modelSize
        = ModelManager.checkModelExists fs modelsDir modelSize)
    ∧ (∀ n,
      (ModelManager.downloadModelAttempt fs modelsDir modelSize
          (.cancelled n)).1 (ModelManager.getModelPath modelsDir modelSize)
        = fs (ModelManager.getModelPath modelsDir modelSize)
      ∧ (ModelManager.downloadModelAttempt fs modelsDir modelSize
          (.cancelled n)).1
          (ModelManager.tempDownloadPath
            (ModelManager.getModelPath modelsDir modelSize)) = none
      ∧ ModelManager.checkModelExists
          (ModelManager.downloadModelAttempt fs modelsDir modelSize
            (.cancelled n)).1 modelsDir modelSize
        = ModelManager.checkModelExists fs modelsDir modelSize)
    ∧ ((ModelManager.downloadModelAttempt fs modelsDir modelSize
          .unreachable).1 (ModelManager.getModelPath modelsDir modelSize)
        = fs (ModelManager.getModelPath modelsDir modelSize)
      ∧ ModelManager.checkModelExists
          (ModelManager.downloadModelAttempt fs modelsDir modelSize
            .unreachable).1 modelsDir modelSize
        = ModelManager.checkModelExists fs modelsDir modelSize)
    ∧ (∀ total,
      (ModelManager.downloadModelAttempt fs modelsDir modelSize
          (.success total)).1 (ModelManager.getModelPath modelsDir modelSize)
        = some total
      ∧ (ModelManager.downloadModelAttempt fs modelsDir modelSize
          (.success total)).1
          (ModelManager.tempDownloadPath
            (ModelManager.getModelPath modelsDir modelSize)) = none)
    ∧ (∀ outcome g,
        g ∈ ModelManager.attemptStates fs modelsDir modelSize outcome →
        g (ModelManager.getModelPath modelsDir modelSize)
            = fs (ModelManager.getModelPath modelsDir modelSize)
        ∨ g (ModelManager.getModelPath modelsDir modelSize) = none
        ∨ ∃ total, outcome = .success total
            ∧ g (ModelManager.getModelPath modelsDir modelSize)
              = some total) := by
  have hne : ModelManager.getModelPath modelsDir modelSize
      ≠ ModelManager.tempDownloadPath (ModelManager.getModelPath modelsDir modelSize) :=
    fun h => tempDownloadPath_ne (ModelManager.getModelPath modelsDir modelSize) h.symm
  have hne2 : ModelManager.tempDownloadPath (ModelManager.getModelPath modelsDir modelSize)
      ≠ ModelManager.getModelPath modelsDir modelSize :=
    tempDownloadPath_ne (ModelManager.getModelPath modelsDir modelSize)
  refine ⟨fun msg n => ⟨?_, ?_, ?_⟩, fun n => ⟨?_, ?_, ?_⟩, ⟨?_, ?_⟩,
    fun total => ⟨?_, ?_⟩, fun outcome g hg => ?_⟩
  case _ =>
    simp [ModelManager.downloadModelAttempt, ModelManager.attemptEvents,
      ModelManager.applyEvent, ModelManager.setFile, ModelManager.delFile, hne, hne2]
  case _ =>
    simp [ModelManager.downloadModelAttempt, ModelManager.attemptEvents,
      ModelManager.applyEvent, ModelManager.setFile, ModelManager.delFile]
  case _ =>
    unfold ModelManager.checkModelExists
    simp [ModelManager.downloadModelAttempt, ModelManager.attemptEvents,
      ModelManager.applyEvent, ModelManager.setFile, ModelManager.delFile, hne, hne2]
  case _ =>
    simp [ModelManager.downloadModelAttempt, ModelManager.attemptEvents,
      ModelManager.applyEvent, ModelManager.setFile, ModelManager.delFile, hne, hne2]
  case _ =>
    simp [ModelManager.downloadModelAttempt, ModelManager.attemptEvents,
      ModelManager.applyEvent, ModelManager.setFile, ModelManager.delFile]
  case _ =>
    unfold ModelManager.checkModelExists
    simp [ModelManager.downloadModelAttempt, ModelManager.attemptEvents,
      ModelManager.applyEvent, ModelManager.setFile, ModelManager.delFile, hne, hne2]
  case _ =>
    simp [ModelManager.downloadModelAttempt, ModelManager.attemptEvents,
      ModelManager.applyEvent, ModelManager.setFile, ModelManager.delFile, hne, hne2]
  case _ =>
    unfold ModelManager.checkModelExists
    simp [ModelManager.downloadModelAttempt, ModelManager.attemptEvents,
      ModelManager.applyEvent, ModelManager.setFile, ModelManager.delFile, hne, hne2]
  case _ =>
    simp [ModelManager.downloadModelAttempt, ModelManager.attemptEvents,
      ModelManager.applyEvent, ModelManager.setFile, ModelManager.delFile, hne, hne2]
  case _ =>
    simp [ModelManager.downloadModelAttempt, ModelManager.attemptEvents,
      ModelManager.applyEvent, ModelManager.setFile, ModelManager.delFile, hne, hne2]
  case _ =>
    cases outcome with
    | success total =>
      simp [ModelManager.attemptStates, ModelManager.attemptEvents,
        List.scanl, ModelManager.applyEvent, ModelManager.setFile,
        ModelManager.delFile] at hg
      rcases hg with rfl | rfl | rfl | rfl
      · exact Or.inl rfl
      · exact Or.inl (by simp [ModelManager.setFile, hne])
      · exact Or.inr (Or.inl (by simp [ModelManager.delFile]))
      · refine Or.inr (Or.inr ⟨total, rfl, ?_⟩)
        simp [ModelManager.setFile, ModelManager.delFile, hne, hne2]
    | netError msg n =>
      simp [ModelManager.attemptStates, ModelManager.attemptEvents,
        List.scanl, ModelManager.applyEvent, ModelManager.setFile,
        ModelManager.delFile] at hg
      rcases hg with rfl | rfl | rfl
      · exact Or.inl rfl
      · exact Or.inl (by simp [ModelManager.setFile, hne])
      · exact Or.inl (by simp [ModelManager.setFile, ModelManager.delFile, hne, hne2])
    | cancelled n =>
      simp [ModelManager.attemptStates, ModelManager.attemptEvents,
        List.scanl, ModelManager.applyEvent, ModelManager.setFile,
        ModelManager.delFile] at hg
      rcases hg with rfl | rfl | rfl
      · exact Or.inl rfl
      · exact Or.inl (by simp [ModelManager.setFile, hne])
      · exact Or.inl (by simp [ModelManager.setFile, ModelManager.delFile, hne, hne2])
    | unreachable =>
      simp [ModelManager.attemptStates, ModelManager.attemptEvents,
        List.scanl, ModelManager.applyEvent, ModelManager.setFile,
        ModelManager.delFile] at hg
      rcases hg with rfl | rfl
      · exact Or.inl rfl
      · exact Or.inl (by simp [ModelManager.delFile, hne])

/-- C4 witness: on an empty file system, an attempt for the tiny model
interrupted by a connection reset after 1234 streamed bytes leaves the
install path untouched, the temporary file deleted, and
checkModelExists unchanged. -/
theorem c4_failed_attempt_invisible_witness :
    (ModelManager.downloadModelAttempt (fun _ => none) "models" "tiny"
        (.netError "read ECONNRESET" 1234)).1
        (ModelManager.getModelPath "models" "tiny")
      = (fun _ => (none : Option Nat)) (ModelManager.getModelPath "models" "tiny")
    ∧ (ModelManager.downloadModelAttempt (fun _ => none) "models" "tiny"
        (.netError "read ECONNRESET" 1234)).1
        (ModelManager.tempDownloadPath (ModelManager.getModelPath "models" "tiny"))
      = none
    ∧ ModelManager.checkModelExists
        (ModelManager.downloadModelAttempt (fun _ => none) "models" "tiny"
          (.netError "read ECONNRESET" 1234)).1 "models" "tiny"
      = ModelManager.checkModelExists (fun _ => none) "models" "tiny" :=
  (c4_failed_attempt_invisible (fun _ => none) "models" "tiny").1
    "read ECONNRESET" 1234
